import Mathlib

/-!
Verification of the rstherac25 simulator core (Therac-25 educational simulator).

The definitions below are a shallow embedding of the Rust source:
  - `src/lib.rs`: the data model (`BeamType`, `BeamEnergy`, `CollimatorPosition`,
    `Meos`, `TPhase`, `TheracState`), the safety predicate `Meos.is_safe`,
    `Meos.needs_collimator_sync`, `TheracState.add_log`, `TheracState.reset`.
  - `src/simulator.rs`: `calculate_dose`, the beam-delivery routine
    `zap_the_specimen` (modelled as a pure step function on the state together
    with the stale snapshots it read earlier), the housekeeper's
    sync decision, the operator commands (`start_treatment`, `stop_treatment`,
    `resume_treatment`, `complete_data_entry`), and
    `generate_race_condition_parameters`.

Modelling conventions:
  - Rust `f32`/`f64` dose arithmetic is embedded as exact rationals (`ℚ`);
    the literals 0.8, 0.1, 100.0 become 4/5, 1/10, 100.
  - Randomness (the reliability sample, the prescription generator) is passed
    in explicitly as parameters.
  - Timestamps produced by the clock are passed in as strings.
  - `format!` messages are rebuilt by string concatenation from the same
    components; numeric formatting width is not reproduced.
-/

namespace Therac

/-- Beam type for radiation therapy (src/lib.rs `BeamType`). -/
inductive BeamType where
  | XRay
  | Electron
  | Undefined
deriving DecidableEq, Repr

/-- Beam energy level in MeV (src/lib.rs `BeamEnergy`). -/
inductive BeamEnergy where
  | E5
  | E10
  | E15
  | E20
  | E25
deriving DecidableEq, Repr

/-- Collimator/turntable position (src/lib.rs `CollimatorPosition`). -/
inductive CollimatorPosition where
  | InPosition
  | OutOfPosition
  | Transitioning
deriving DecidableEq, Repr

/-- MEOS: Mode/Energy/Offset Structure (src/lib.rs `Meos`). -/
structure Meos where
  beam_type : BeamType
  beam_energy : BeamEnergy
  collimator : CollimatorPosition
deriving DecidableEq, Repr

/-- Default MEOS: `BeamType::Undefined`, `BeamEnergy::E10`,
`CollimatorPosition::OutOfPosition` (src/lib.rs Default impls). -/
def Meos.default : Meos :=
  { beam_type := BeamType.Undefined
  , beam_energy := BeamEnergy.E10
  , collimator := CollimatorPosition.OutOfPosition }

/-- `Meos::is_safe` (src/lib.rs lines 178-184). -/
def Meos.is_safe (m : Meos) : Bool :=
  match m.beam_type with
  | BeamType.XRay => m.collimator = CollimatorPosition.InPosition
  | BeamType.Electron => m.collimator = CollimatorPosition.OutOfPosition
  | BeamType.Undefined => false

/-- `Meos::needs_collimator_sync` (src/lib.rs lines 187-189): unsafe and the
configuration's own collimator field is not `Transitioning`. -/
def Meos.needs_collimator_sync (m : Meos) : Bool :=
  !m.is_safe && decide (m.collimator ≠ CollimatorPosition.Transitioning)

/-- Treatment phase state machine (src/lib.rs `TPhase`). -/
inductive TPhase where
  | Reset
  | DataEntry
  | SetupTest
  | SetupDone
  | PatientTreatment
  | PauseTreatment
  | TerminateTreatment
  | DateTimeIdChanges
deriving DecidableEq, Repr

/-- Treatment parameters (src/lib.rs `TreatmentParams`); `f32` fields embedded
as exact rationals. -/
structure TreatmentParams where
  gantry_angle : Nat
  collimator_angle : Nat
  field_size_x : ℚ
  field_size_y : ℚ
  dose_rate : ℚ
deriving DecidableEq, Repr

/-- Default treatment parameters (src/lib.rs Default impl). -/
def TreatmentParams.default : TreatmentParams :=
  { gantry_angle := 0
  , collimator_angle := 0
  , field_size_x := 10
  , field_size_y := 10
  , dose_rate := 100 }

/-- Main Therac-25 state (src/lib.rs `TheracState`); `f64` dose fields embedded
as exact rationals, `u8`/`u32` counters as `Nat`. -/
structure TheracState where
  console_meos : Meos
  hardware_meos : Meos
  reference_meos : Meos
  console_params : TreatmentParams
  hardware_params : TreatmentParams
  reference_params : TreatmentParams
  phase : TPhase
  data_entry_complete : Bool
  f_small : Bool
  class3 : Nat
  bending_magnet_flag : Bool
  editing_taking_place : Bool
  reset_pending : Bool
  class3_ignore : Bool
  malfunction_count : Nat
  dose_delivered : ℚ
  dose_target : ℚ
  reference_dose_target : ℚ
  treatment_outcome : String
  log : List String
  last_malfunction : Option String
deriving DecidableEq, Repr

/-- Log truncation used by `add_log` (src/lib.rs lines 418-420): the Rust
`drain(0..len-100)` keeps only the last 100 entries. -/
def truncLog (l : List String) : List String :=
  if l.length > 100 then l.drop (l.length - 100) else l

/-- Timestamped log entry (src/lib.rs line 416): the format string
`[ts] message`, with the clock reading passed in as `ts`. -/
def stampLog (ts message : String) : String :=
  "[" ++ ts ++ "] " ++ message

/-- `TheracState::add_log` (src/lib.rs lines 415-421): push the timestamped
message, then keep only the last 100 entries. -/
def TheracState.add_log (s : TheracState) (ts message : String) : TheracState :=
  { s with log := truncLog (s.log ++ [stampLog ts message]) }

/-- Beam type drawn by the prescription generator from a coin flip
(src/lib.rs lines 364-368). -/
def drawnBeamType (coin : Bool) : BeamType :=
  if coin then BeamType.XRay else BeamType.Electron

/-- Beam energy drawn by the prescription generator from `gen_range(0..5)`
(src/lib.rs lines 370-376). -/
def drawnBeamEnergy (i : Nat) : BeamEnergy :=
  match i with
  | 0 => BeamEnergy.E5
  | 1 => BeamEnergy.E10
  | 2 => BeamEnergy.E15
  | 3 => BeamEnergy.E20
  | _ => BeamEnergy.E25

/-- Safe collimator position for a beam type, as chosen by the prescription
generator (src/lib.rs lines 378-382). -/
def safeCollimatorFor (bt : BeamType) : CollimatorPosition :=
  match bt with
  | BeamType.XRay => CollimatorPosition.InPosition
  | BeamType.Electron => CollimatorPosition.OutOfPosition
  | BeamType.Undefined => CollimatorPosition.OutOfPosition

/-- The random draws consumed by `generate_new_reference`
(src/lib.rs lines 360-402), passed in explicitly. -/
structure RandomDraws where
  coin : Bool
  energyIdx : Nat
  doseTarget : ℚ
  gantry : Nat
  collAngle : Nat
  fieldX : ℚ
  fieldY : ℚ
  doseRate : ℚ
deriving DecidableEq, Repr

/-- Prescription log line written by `generate_new_reference`
(src/lib.rs lines 404-412), rebuilt by concatenation. -/
def prescriptionMsg (m : Meos) (doseTarget : ℚ) (p : TreatmentParams) : String :=
  "New prescription: " ++ reprStr m.beam_type ++ " @ " ++ reprStr m.beam_energy ++
    " - " ++ toString doseTarget ++ " cGy - Gantry " ++ toString p.gantry_angle ++
    " deg - Field " ++ toString p.field_size_x ++ "x" ++ toString p.field_size_y ++ " cm"

/-- `TheracState::generate_new_reference` (src/lib.rs lines 360-413), with the
random draws and the log timestamp passed in. -/
def TheracState.generate_new_reference (s : TheracState) (r : RandomDraws)
    (ts : String) : TheracState :=
  let bt := drawnBeamType r.coin
  let newRef : Meos :=
    { beam_type := bt
    , beam_energy := drawnBeamEnergy r.energyIdx
    , collimator := safeCollimatorFor bt }
  let newParams : TreatmentParams :=
    { gantry_angle := r.gantry
    , collimator_angle := r.collAngle
    , field_size_x := r.fieldX
    , field_size_y := r.fieldY
    , dose_rate := r.doseRate }
  ({ s with
      reference_meos := newRef
    , reference_dose_target := r.doseTarget
    , reference_params := newParams }).add_log ts
    (prescriptionMsg newRef r.doseTarget newParams)

/-- `TheracState::reset` (src/lib.rs lines 423-440): clear the transient
fields, log "System reset", then regenerate the reference prescription. -/
def TheracState.reset (s : TheracState) (r : RandomDraws)
    (ts1 ts2 : String) : TheracState :=
  (({ s with
      phase := TPhase.Reset
    , data_entry_complete := false
    , f_small := false
    , class3 := 0
    , bending_magnet_flag := false
    , editing_taking_place := false
    , reset_pending := false
    , class3_ignore := false
    , dose_delivered := 0
    , dose_target := 200
    , last_malfunction := none
    , treatment_outcome := ""
    , console_meos := Meos.default
    , console_params := TreatmentParams.default }).add_log ts1
      "System reset").generate_new_reference r ts2

/-- The housekeeper's per-tick sync decision (src/simulator.rs lines 50-55):
sync only when the phase is not `PatientTreatment` and the CONSOLE
configuration reports `needs_collimator_sync` on its own fields. -/
def housekeeperNeedsSync (s : TheracState) : Bool :=
  decide (s.phase ≠ TPhase.PatientTreatment) && s.console_meos.needs_collimator_sync

/-- The sync condition as worded by the claim (spec section 4.3): phase not
`PatientTreatment`, console configuration unsafe RELATIVE TO THE HARDWARE's
current collimator position, and the (hardware) collimator not already
`Transitioning`. Written from the spec's words, to be compared with
`housekeeperNeedsSync` above. -/
def claimedNeedsSync (s : TheracState) : Bool :=
  decide (s.phase ≠ TPhase.PatientTreatment) &&
  !(Meos.is_safe
    { beam_type := s.console_meos.beam_type
    , beam_energy := s.console_meos.beam_energy
    , collimator := s.hardware_meos.collimator }) &&
  decide (s.hardware_meos.collimator ≠ CollimatorPosition.Transitioning)

/-- `start_treatment` (src/simulator.rs lines 324-330): acts only when the
phase is `SetupDone`; otherwise the state is returned untouched. -/
def start_treatment (s : TheracState) (ts : String) : TheracState :=
  if s.phase = TPhase.SetupDone then
    ({ s with phase := TPhase.PatientTreatment }).add_log ts
      "Starting patient treatment"
  else s

/-- `stop_treatment` (src/simulator.rs lines 333-339): acts only when the
phase is `PatientTreatment`. -/
def stop_treatment (s : TheracState) (ts : String) : TheracState :=
  if s.phase = TPhase.PatientTreatment then
    ({ s with phase := TPhase.PauseTreatment }).add_log ts
      "Treatment paused by operator"
  else s

/-- `resume_treatment` (src/simulator.rs lines 342-349): acts only when the
phase is `PauseTreatment`. -/
def resume_treatment (s : TheracState) (ts : String) : TheracState :=
  if s.phase = TPhase.PauseTreatment then
    ({ s with phase := TPhase.PatientTreatment, last_malfunction := none
     }).add_log ts "Treatment resumed"
  else s

/-- `complete_data_entry` (src/simulator.rs lines 354-363): acts only when the
phase is `DataEntry`. -/
def complete_data_entry (s : TheracState) (ts : String) : TheracState :=
  if s.phase = TPhase.DataEntry then
    ({ s with data_entry_complete := true, editing_taking_place := false
     }).add_log ts "Data entry complete - hardware sync pending"
  else s

/-- `calculate_dose` (src/simulator.rs lines 306-321): base dose by energy,
times 0.8 (= 4/5) in X-ray mode, 0 for Undefined. -/
def calculate_dose (m : Meos) : ℚ :=
  let base : ℚ :=
    match m.beam_energy with
    | BeamEnergy.E5 => 2
    | BeamEnergy.E10 => 4
    | BeamEnergy.E15 => 6
    | BeamEnergy.E20 => 8
    | BeamEnergy.E25 => 10
  match m.beam_type with
  | BeamType.XRay => base * (4 / 5)
  | BeamType.Electron => base
  | BeamType.Undefined => 0

/-- The unsafe-fire dose multiplier (src/simulator.rs lines 247-259):
100 for XRay with collimator OutOfPosition, 0.1 (= 1/10) for Electron with
collimator InPosition, 1 otherwise. -/
def dose_multiplier (m : Meos) : ℚ :=
  match m.beam_type with
  | BeamType.XRay =>
      if m.collimator = CollimatorPosition.OutOfPosition then 100 else 1
  | BeamType.Electron =>
      if m.collimator = CollimatorPosition.InPosition then 1 / 10 else 1
  | BeamType.Undefined => 1

/-- MALFUNCTION 54 message (src/simulator.rs lines 230-235), rebuilt by
concatenation from the same components: the incremented malfunction count and
both stale snapshots. -/
def mismatchMsg (count : Nat) (console hardware : Meos) : String :=
  "MALFUNCTION 54 - Parameter mismatch (occurrence #" ++ toString count ++
    ") - Console: " ++ reprStr console.beam_type ++ "/" ++
    reprStr console.collimator ++ ", Hardware: " ++
    reprStr hardware.beam_type ++ "/" ++ reprStr hardware.collimator

/-- Critical-safety-violation message (src/simulator.rs lines 267-270): the
multiplier, this pulse's dose, and the running totals. -/
def violationMsg (mult pulse delivered target : ℚ) : String :=
  "CRITICAL SAFETY VIOLATION! Beam fired with unsafe configuration! " ++
    "Dose multiplier: " ++ toString mult ++ "x - Delivered " ++ toString pulse ++
    " cGy this pulse (total: " ++ toString delivered ++ "/" ++
    toString target ++ " cGy)"

/-- Random-hardware-fault message (src/simulator.rs line 280). -/
def randomFaultMsg (n : Nat) : String :=
  "MALFUNCTION " ++ toString n ++ " - Random hardware fault"

/-- Normal beam-delivery progress message (src/simulator.rs lines 292-295). -/
def beamDeliveredMsg (pulse delivered target : ℚ) : String :=
  "Beam delivered: " ++ toString pulse ++ " cGy (total: " ++
    toString delivered ++ "/" ++ toString target ++ " cGy)"

/-- `zap_the_specimen` (src/simulator.rs lines 207-302), modelled as the pure
transition applied inside the exclusive section. `console_snap` and
`hardware_snap` are the stale snapshots read non-atomically before the sleep;
`s` is the state found when the write lock is finally acquired (possibly
changed by the housekeeper in between); `n` is the reliability sample drawn in
step 1; `ts` is the clock reading used for the log entry. -/
def zap_the_specimen (console_snap hardware_snap : Meos) (n : Nat)
    (s : TheracState) (ts : String) : TheracState :=
  if console_snap ≠ hardware_snap then
    let count := s.malfunction_count + 1
    let msg := mismatchMsg count console_snap hardware_snap
    ({ s with
        malfunction_count := count
      , phase := TPhase.PauseTreatment
      , last_malfunction := some msg }).add_log ts msg
  else if ¬ s.hardware_meos.is_safe then
    let count := s.malfunction_count + 1
    let mult := dose_multiplier s.hardware_meos
    let pulse := calculate_dose s.hardware_meos * mult
    let delivered := s.dose_delivered + pulse
    let msg := violationMsg mult pulse delivered s.dose_target
    ({ s with
        malfunction_count := count
      , dose_delivered := delivered
      , phase := TPhase.PauseTreatment
      , last_malfunction := some msg }).add_log ts msg
  else if n > 22 then
    let msg := randomFaultMsg n
    ({ s with
        malfunction_count := s.malfunction_count + 1
      , phase := TPhase.PauseTreatment
      , last_malfunction := some msg }).add_log ts msg
  else
    let pulse := calculate_dose s.hardware_meos
    let delivered := s.dose_delivered + pulse
    let s1 :=
      ({ s with dose_delivered := delivered }).add_log ts
        (beamDeliveredMsg pulse delivered s.dose_target)
    if delivered ≥ s.dose_target then
      ({ s1 with phase := TPhase.TerminateTreatment }).add_log ts
        "Target dose reached"
    else s1

/-- `generate_race_condition_parameters` (src/simulator.rs lines 411-425):
flip the beam type, keep energy and collimator. -/
def generate_race_condition_parameters (current : Meos) : Meos :=
  let new_beam_type :=
    match current.beam_type with
    | BeamType.XRay => BeamType.Electron
    | BeamType.Electron => BeamType.XRay
    | BeamType.Undefined => BeamType.Electron
  { beam_type := new_beam_type
  , beam_energy := current.beam_energy
  , collimator := current.collimator }

/-- Base dose per energy level as worded by the spec (5→2.0, 10→4.0, 15→6.0,
20→8.0, 25→10.0 dose units). Written from the spec's words, to be compared
with `calculate_dose`. -/
def claimedBaseDose (e : BeamEnergy) : ℚ :=
  match e with
  | BeamEnergy.E5 => 2
  | BeamEnergy.E10 => 4
  | BeamEnergy.E15 => 6
  | BeamEnergy.E20 => 8
  | BeamEnergy.E25 => 10

/-- Concrete MEOS: X-ray at 10 MeV with the flatness filter in position. -/
def meosXI : Meos :=
  { beam_type := BeamType.XRay
  , beam_energy := BeamEnergy.E10
  , collimator := CollimatorPosition.InPosition }

/-- Concrete MEOS: X-ray at 10 MeV with the collimator out of position. -/
def meosXO : Meos :=
  { beam_type := BeamType.XRay
  , beam_energy := BeamEnergy.E10
  , collimator := CollimatorPosition.OutOfPosition }

/-- Concrete MEOS: X-ray at 25 MeV with the flatness filter in position. -/
def meosX25 : Meos :=
  { beam_type := BeamType.XRay
  , beam_energy := BeamEnergy.E25
  , collimator := CollimatorPosition.InPosition }

/-- A concrete well-formed state, mirroring the deterministic part of the
Default impl (src/lib.rs lines 328-351), used to instantiate theorems. -/
def baseState : TheracState :=
  { console_meos := Meos.default
  , hardware_meos := Meos.default
  , reference_meos := meosXI
  , console_params := TreatmentParams.default
  , hardware_params := TreatmentParams.default
  , reference_params := TreatmentParams.default
  , phase := TPhase.Reset
  , data_entry_complete := false
  , f_small := false
  , class3 := 0
  , bending_magnet_flag := false
  , editing_taking_place := false
  , reset_pending := false
  , class3_ignore := false
  , malfunction_count := 0
  , dose_delivered := 0
  , dose_target := 200
  , reference_dose_target := 200
  , treatment_outcome := ""
  , log := []
  , last_malfunction := none }

/-- Concrete state for the housekeeper sync decision: console holds a safe
X-ray configuration, but the hardware collimator is still out of position. -/
def syncExState : TheracState :=
  { baseState with console_meos := meosXI, hardware_meos := meosXO }

/-- Concrete state inside the beam-delivery write section after the
housekeeper raced: snapshots will agree, but the hardware configuration is
unsafe (X-ray firing with the collimator out of position). -/
def unsafeFireState : TheracState :=
  { baseState with
      console_meos := meosXO
    , hardware_meos := meosXO
    , phase := TPhase.PatientTreatment }

/-- Concrete state for a normal pulse: console and hardware agree on a safe
X-ray 25 MeV configuration during patient treatment. -/
def normalFireState : TheracState :=
  { baseState with
      console_meos := meosX25
    , hardware_meos := meosX25
    , phase := TPhase.PatientTreatment }

end Therac

namespace Therac

/-- C1: `is_safe` is true iff (XRay and InPosition) or (Electron and
OutOfPosition); a configuration with beam type Undefined is never safe. -/
theorem is_safe_iff (m : Meos) :
    (m.is_safe = true ↔
      (m.beam_type = BeamType.XRay ∧ m.collimator = CollimatorPosition.InPosition) ∨
      (m.beam_type = BeamType.Electron ∧ m.collimator = CollimatorPosition.OutOfPosition)) ∧
    (m.beam_type = BeamType.Undefined → m.is_safe = false) := by
  obtain ⟨bt, be, cp⟩ := m
  cases bt <;> cases cp <;> simp [Meos.is_safe]

/-- Witness for C1: instantiation at a concrete configuration, discharging the
Undefined hypothesis. -/
theorem is_safe_iff_witness :
    Meos.is_safe
      { beam_type := BeamType.Undefined
      , beam_energy := BeamEnergy.E25
      , collimator := CollimatorPosition.InPosition } = false :=
  (is_safe_iff
    { beam_type := BeamType.Undefined
    , beam_energy := BeamEnergy.E25
    , collimator := CollimatorPosition.InPosition }).2 rfl

/-- C7: `reset` sets the phase to `Reset`, zeroes `dose_delivered`, and
leaves `malfunction_count` unchanged, for every state, random prescription
draw and pair of timestamps. -/
theorem reset_spec (s : TheracState) (r : RandomDraws) (ts1 ts2 : String) :
    (s.reset r ts1 ts2).phase = TPhase.Reset ∧
    (s.reset r ts1 ts2).dose_delivered = 0 ∧
    (s.reset r ts1 ts2).malfunction_count = s.malfunction_count :=
  ⟨rfl, rfl, rfl⟩

/-- C10: `reset` leaves `hardware_meos` and `hardware_params` untouched while
reinitializing the console configuration and parameters, phase, flags, dose
counters, `last_malfunction`, and regenerating the reference prescription
from the draws. -/
theorem reset_frame (s : TheracState) (r : RandomDraws) (ts1 ts2 : String) :
    (s.reset r ts1 ts2).hardware_meos = s.hardware_meos ∧
    (s.reset r ts1 ts2).hardware_params = s.hardware_params ∧
    (s.reset r ts1 ts2).console_meos = Meos.default ∧
    (s.reset r ts1 ts2).console_params = TreatmentParams.default ∧
    (s.reset r ts1 ts2).phase = TPhase.Reset ∧
    (s.reset r ts1 ts2).data_entry_complete = false ∧
    (s.reset r ts1 ts2).f_small = false ∧
    (s.reset r ts1 ts2).class3 = 0 ∧
    (s.reset r ts1 ts2).bending_magnet_flag = false ∧
    (s.reset r ts1 ts2).editing_taking_place = false ∧
    (s.reset r ts1 ts2).reset_pending = false ∧
    (s.reset r ts1 ts2).class3_ignore = false ∧
    (s.reset r ts1 ts2).dose_delivered = 0 ∧
    (s.reset r ts1 ts2).dose_target = 200 ∧
    (s.reset r ts1 ts2).last_malfunction = none ∧
    (s.reset r ts1 ts2).reference_meos =
      { beam_type := drawnBeamType r.coin
      , beam_energy := drawnBeamEnergy r.energyIdx
      , collimator := safeCollimatorFor (drawnBeamType r.coin) } ∧
    (s.reset r ts1 ts2).reference_dose_target = r.doseTarget :=
  ⟨rfl, rfl, rfl, rfl, rfl, rfl, rfl, rfl, rfl, rfl, rfl, rfl, rfl, rfl, rfl,
   rfl, rfl⟩

/-- C8: after `add_log` the log has exactly `min (n+1) 100` entries (hence at
most 100), and it is a suffix of the old log with the new stamped entry
appended — FIFO eviction of the oldest entries, insertion order preserved. -/
theorem add_log_bounded (s : TheracState) (ts m : String) :
    (s.add_log ts m).log.length ≤ 100 ∧
    (s.add_log ts m).log.length = min (s.log.length + 1) 100 ∧
    (s.add_log ts m).log <:+ s.log ++ [stampLog ts m] := by
  refine ⟨?_, ?_, ?_⟩
  · simp only [TheracState.add_log, truncLog]
    split
    · simp only [List.length_drop]
      omega
    · simp only [List.length_append, List.length_singleton] at *
      omega
  · simp only [TheracState.add_log, truncLog]
    split
    · simp only [List.length_drop, List.length_append, List.length_singleton] at *
      omega
    · simp only [List.length_append, List.length_singleton] at *
      omega
  · simp only [TheracState.add_log, truncLog]
    split
    · exact List.drop_suffix _ _
    · exact List.suffix_refl _

/-- C9: applied to a safe configuration, `generate_race_condition_parameters`
yields an unsafe one; it swaps XRay and Electron and keeps the beam energy
and collimator position unchanged. -/
theorem race_trigger_flip (m : Meos) (hsafe : m.is_safe = true) :
    (generate_race_condition_parameters m).is_safe = false ∧
    (m.beam_type = BeamType.XRay →
      (generate_race_condition_parameters m).beam_type = BeamType.Electron) ∧
    (m.beam_type = BeamType.Electron →
      (generate_race_condition_parameters m).beam_type = BeamType.XRay) ∧
    (generate_race_condition_parameters m).beam_energy = m.beam_energy ∧
    (generate_race_condition_parameters m).collimator = m.collimator := by
  obtain ⟨bt, be, cp⟩ := m
  cases bt <;> cases cp <;>
    simp_all [Meos.is_safe, generate_race_condition_parameters]

/-- Witness for C9: the safe X-ray configuration `meosXI` becomes unsafe. -/
theorem race_trigger_flip_witness :
    (generate_race_condition_parameters meosXI).is_safe = false :=
  (race_trigger_flip meosXI (by decide)).1

/-- Counterexample to C5 as stated: in `syncExState` the console holds a safe
X-ray configuration (its own collimator field says InPosition) while the
hardware collimator is OutOfPosition. The claim's condition — console unsafe
relative to the HARDWARE's collimator, hardware collimator not Transitioning,
phase not PatientTreatment — is true, yet the code decides no sync is needed,
because `needs_collimator_sync` consults the console's own collimator field. -/
theorem needs_sync_hardware_counterexample :
    housekeeperNeedsSync syncExState = false ∧
    claimedNeedsSync syncExState = true :=
  ⟨rfl, rfl⟩

/-- C5 (amended): each housekeeper tick decides sync is needed iff the phase
is not PatientTreatment, the console configuration is unsafe by its OWN
collimator field, and the console's collimator field is not Transitioning. -/
theorem needs_sync_amended (s : TheracState) :
    housekeeperNeedsSync s = true ↔
      s.phase ≠ TPhase.PatientTreatment ∧
      s.console_meos.is_safe = false ∧
      s.console_meos.collimator ≠ CollimatorPosition.Transitioning := by
  simp [housekeeperNeedsSync, Meos.needs_collimator_sync,
    Bool.and_eq_true, decide_eq_true_eq, Bool.not_eq_true']

/-- Counterexample to C6 as stated: `start_treatment` issued while the phase
is `Reset` (an invalid phase) leaves the state completely unchanged — in
particular NO log entry is appended, contrary to the claim. -/
theorem invalid_phase_log_counterexample :
    start_treatment baseState "12:00:00" = baseState ∧
    (start_treatment baseState "12:00:00").log.length = 0 :=
  ⟨rfl, rfl⟩

/-- C6 (amended): a command issued in an invalid phase leaves the state
entirely unchanged (no log entry is appended); being total functions, the
commands never propagate an error to the caller. -/
theorem invalid_phase_ignored (s : TheracState) (ts : String) :
    (s.phase ≠ TPhase.SetupDone → start_treatment s ts = s) ∧
    (s.phase ≠ TPhase.PatientTreatment → stop_treatment s ts = s) ∧
    (s.phase ≠ TPhase.PauseTreatment → resume_treatment s ts = s) ∧
    (s.phase ≠ TPhase.DataEntry → complete_data_entry s ts = s) := by
  refine ⟨fun h => ?_, fun h => ?_, fun h => ?_, fun h => ?_⟩ <;>
    simp [start_treatment, stop_treatment, resume_treatment,
      complete_data_entry, h]

/-- Witness for C6: all four commands leave `baseState` (phase `Reset`,
invalid for each of them) unchanged. -/
theorem invalid_phase_ignored_witness :
    start_treatment baseState "12:00:01" = baseState ∧
    stop_treatment baseState "12:00:01" = baseState ∧
    resume_treatment baseState "12:00:01" = baseState ∧
    complete_data_entry baseState "12:00:01" = baseState := by
  have h := invalid_phase_ignored baseState "12:00:01"
  exact ⟨h.1 (by decide), h.2.1 (by decide), h.2.2.1 (by decide),
    h.2.2.2 (by decide)⟩

/-- C3: when the stale console snapshot differs structurally from the stale
hardware snapshot, the beam-delivery routine increments the malfunction
counter, pauses treatment, records the MALFUNCTION 54 message (carrying both
snapshots) in `last_malfunction` and the log, and delivers no dose. -/
theorem zap_mismatch (c h : Meos) (n : Nat) (s : TheracState) (ts : String)
    (hne : c ≠ h) :
    (zap_the_specimen c h n s ts).malfunction_count = s.malfunction_count + 1 ∧
    (zap_the_specimen c h n s ts).phase = TPhase.PauseTreatment ∧
    (zap_the_specimen c h n s ts).last_malfunction =
      some (mismatchMsg (s.malfunction_count + 1) c h) ∧
    (zap_the_specimen c h n s ts).log =
      truncLog (s.log ++
        [stampLog ts (mismatchMsg (s.malfunction_count + 1) c h)]) ∧
    (zap_the_specimen c h n s ts).dose_delivered = s.dose_delivered := by
  simp [zap_the_specimen, hne, TheracState.add_log]

/-- Witness for C3: at a concrete snapshot pair with differing collimators,
the routine pauses treatment, counts a malfunction and delivers nothing. -/
theorem zap_mismatch_witness :
    (zap_the_specimen meosXI meosXO 12 baseState "09:00:00").malfunction_count
      = 1 ∧
    (zap_the_specimen meosXI meosXO 12 baseState "09:00:00").phase
      = TPhase.PauseTreatment ∧
    (zap_the_specimen meosXI meosXO 12 baseState "09:00:00").dose_delivered
      = 0 := by
  have hz := zap_mismatch meosXI meosXO 12 baseState "09:00:00" (by decide)
  exact ⟨hz.1, hz.2.1, hz.2.2.2.2⟩

/-- The unsafe-fire multiplier of the source, written out as the claim's case
analysis. -/
theorem dose_multiplier_cases (m : Meos) :
    dose_multiplier m =
      if m.beam_type = BeamType.XRay ∧
          m.collimator = CollimatorPosition.OutOfPosition then 100
      else if m.beam_type = BeamType.Electron ∧
          m.collimator = CollimatorPosition.InPosition then 1 / 10
      else 1 := by
  obtain ⟨bt, be, cp⟩ := m
  cases bt <;> cases cp <;> simp [dose_multiplier]

/-- C2: when the stale snapshots agree but the re-read current hardware
configuration is unsafe, the routine accumulates
`base_dose × multiplier` into `dose_delivered` with the multiplier given by
the claim's case analysis (100 for XRay with the filter out, 0.1 for Electron
with the filter in, 1 otherwise), increments the malfunction counter, pauses
treatment, and records the critical-safety-violation message (with multiplier
and running totals) in `last_malfunction` and the log. -/
theorem zap_unsafe_fire (c h : Meos) (n : Nat) (s : TheracState) (ts : String)
    (heq : c = h) (hviol : s.hardware_meos.is_safe = false) :
    (zap_the_specimen c h n s ts).dose_delivered =
      s.dose_delivered +
        calculate_dose s.hardware_meos * dose_multiplier s.hardware_meos ∧
    dose_multiplier s.hardware_meos =
      (if s.hardware_meos.beam_type = BeamType.XRay ∧
          s.hardware_meos.collimator = CollimatorPosition.OutOfPosition
        then 100
       else if s.hardware_meos.beam_type = BeamType.Electron ∧
          s.hardware_meos.collimator = CollimatorPosition.InPosition
        then 1 / 10
       else 1) ∧
    (zap_the_specimen c h n s ts).malfunction_count = s.malfunction_count + 1 ∧
    (zap_the_specimen c h n s ts).phase = TPhase.PauseTreatment ∧
    (zap_the_specimen c h n s ts).last_malfunction =
      some (violationMsg (dose_multiplier s.hardware_meos)
        (calculate_dose s.hardware_meos * dose_multiplier s.hardware_meos)
        (s.dose_delivered +
          calculate_dose s.hardware_meos * dose_multiplier s.hardware_meos)
        s.dose_target) ∧
    (zap_the_specimen c h n s ts).log =
      truncLog (s.log ++
        [stampLog ts (violationMsg (dose_multiplier s.hardware_meos)
          (calculate_dose s.hardware_meos * dose_multiplier s.hardware_meos)
          (s.dose_delivered +
            calculate_dose s.hardware_meos * dose_multiplier s.hardware_meos)
          s.dose_target)]) := by
  subst heq
  refine ⟨?_, dose_multiplier_cases _, ?_, ?_, ?_, ?_⟩ <;>
    simp [zap_the_specimen, hviol, TheracState.add_log]

/-- Witness for C2: firing X-ray at 10 MeV with the collimator out of
position delivers 4 × 0.8 × 100 = 320 cGy in one pulse and pauses. -/
theorem zap_unsafe_fire_witness :
    (zap_the_specimen meosXO meosXO 12 unsafeFireState "09:30:00"
      ).dose_delivered = 320 ∧
    (zap_the_specimen meosXO meosXO 12 unsafeFireState "09:30:00").phase
      = TPhase.PauseTreatment ∧
    (zap_the_specimen meosXO meosXO 12 unsafeFireState "09:30:00"
      ).malfunction_count = 1 := by
  have hz := zap_unsafe_fire meosXO meosXO 12 unsafeFireState "09:30:00" rfl
    (by decide)
  refine ⟨?_, hz.2.2.2.1, hz.2.2.1⟩
  rw [hz.1]
  norm_num [calculate_dose, dose_multiplier, meosXO, unsafeFireState,
    baseState]

/-- A safe configuration never has beam type Undefined. -/
theorem is_safe_beam_defined (m : Meos) (hs : m.is_safe = true) :
    m.beam_type ≠ BeamType.Undefined := by
  obtain ⟨bt, be, cp⟩ := m
  cases bt <;> simp_all [Meos.is_safe]

/-- For defined beam types, `calculate_dose` is the claimed base-dose table
times 0.8 exactly in X-ray mode. -/
theorem calculate_dose_cases (m : Meos)
    (hm : m.beam_type ≠ BeamType.Undefined) :
    calculate_dose m =
      claimedBaseDose m.beam_energy *
        (if m.beam_type = BeamType.XRay then 4 / 5 else 1) := by
  obtain ⟨bt, be, cp⟩ := m
  cases bt <;> cases be <;> simp_all [calculate_dose, claimedBaseDose]

/-- C4: on the normal-delivery branch (snapshots equal, current hardware
configuration safe, reliability sample at most the threshold 22, phase
`PatientTreatment`), the pulse equals the claimed base dose for the hardware
energy times 0.8 exactly when the hardware beam type is XRay, it is added to
`dose_delivered`, and the phase becomes `TerminateTreatment` iff the
accumulated dose reaches the target. -/
theorem zap_normal_pulse (c h : Meos) (n : Nat) (s : TheracState) (ts : String)
    (heq : c = h) (hsafe : s.hardware_meos.is_safe = true) (hn : n ≤ 22)
    (hphase : s.phase = TPhase.PatientTreatment) :
    (zap_the_specimen c h n s ts).dose_delivered =
      s.dose_delivered +
        claimedBaseDose s.hardware_meos.beam_energy *
          (if s.hardware_meos.beam_type = BeamType.XRay then 4 / 5 else 1) ∧
    ((zap_the_specimen c h n s ts).phase = TPhase.TerminateTreatment ↔
      s.dose_delivered + calculate_dose s.hardware_meos ≥ s.dose_target) := by
  subst heq
  have hd := calculate_dose_cases s.hardware_meos (is_safe_beam_defined _ hsafe)
  have hn' : ¬ (n > 22) := by omega
  constructor
  · rw [← hd]
    simp only [zap_the_specimen, TheracState.add_log]
    rw [if_neg (fun hc => hc rfl), if_neg (fun hc => hc hsafe), if_neg hn']
    split <;> rfl
  · simp only [zap_the_specimen, TheracState.add_log]
    rw [if_neg (fun hc => hc rfl), if_neg (fun hc => hc hsafe), if_neg hn']
    split
    · rename_i hge
      simp [hge]
    · rename_i hlt
      simp [hphase, hlt]

/-- Witness for C4: a safe X-ray 25 MeV pulse delivers 10 × 0.8 = 8 cGy and,
being below the 200 cGy target, does not terminate the treatment. -/
theorem zap_normal_pulse_witness :
    (zap_the_specimen meosX25 meosX25 12 normalFireState "10:00:00"
      ).dose_delivered = 8 ∧
    (zap_the_specimen meosX25 meosX25 12 normalFireState "10:00:00").phase
      ≠ TPhase.TerminateTreatment := by
  have hz := zap_normal_pulse meosX25 meosX25 12 normalFireState "10:00:00"
    rfl (by decide) (by omega) rfl
  constructor
  · rw [hz.1]
    norm_num [claimedBaseDose, meosX25, normalFireState, baseState]
  · intro hp
    have hge := hz.2.mp hp
    norm_num [calculate_dose, meosX25, normalFireState, baseState] at hge

end Therac
